import Mathlib

/-
Verification of the 802.11 Block-Ack session manager of
drivers/staging/rtl8192u/ieee80211/rtl819x_BAProc.c.

The module is embedded shallowly: each C function becomes a pure Lean
function over explicit state.  Kernel collaborators (skb allocation,
softmac_mgmt_xmit, GetTs, timers) are modelled as follows:

  * an outbound frame becomes an element of a result list `List OutFrame`
    carrying exactly the fields the codec writes on the wire;
  * `GetTs` becomes an `Option` parameter holding the looked-up TS record;
  * a `struct timer_list` becomes a `timerArmed : Bool` flag:
    `mod_timer` arms it, `del_timer_sync` disarms it, and a callback runs
    with its own timer already disarmed (a fired one-shot timer is no
    longer pending);
  * an incoming `sk_buff` becomes a `List Nat` of bytes; a read beyond
    `skb.len` (an out-of-bounds read in C) yields the unspecified value 0.

Machine integers are Nat with explicit `% 2^w` where the C code wraps.
-/

/-- Modelled from the spec: action category and action codes of the three
BA action frames (defined in ieee80211.h, which is not part of this tree);
the category byte is the Block-Ack category constant. -/
def ACT_CAT_BA : Nat := 3

/-- Modelled from the spec: action code of an ADDBA-Request frame. -/
def ACT_ADDBAREQ : Nat := 0

/-- Modelled from the spec: action code of an ADDBA-Response frame. -/
def ACT_ADDBARSP : Nat := 1

/-- Modelled from the spec: action code of a DELBA frame. -/
def ACT_DELBA : Nat := 2

/-- Modelled from the spec: ADDBA status code Success(0) (rtl819x_BA.h is
not part of this tree; exact numeric values per the 802.11 spec). -/
def ADDBA_STATUS_SUCCESS : Nat := 0

/-- Modelled from the spec: ADDBA status code Refused. -/
def ADDBA_STATUS_REFUSED : Nat := 37

/-- Modelled from the spec: ADDBA status code InvalidParameter. -/
def ADDBA_STATUS_INVALID_PARAM : Nat := 38

/-- Modelled from the spec: BA policy value Delayed. -/
def BA_POLICY_DELAYED : Nat := 0

/-- Modelled from the spec: BA policy value Immediate. -/
def BA_POLICY_IMMEDIATE : Nat := 1

/-- Modelled from the spec: DELBA reason code EndBA. -/
def DELBA_REASON_END_BA : Nat := 37

/-- Modelled from the spec: DELBA reason code UnknownBA. -/
def DELBA_REASON_UNKNOWN_BA : Nat := 38

/-- Modelled from the spec: DELBA reason code Timeout. -/
def DELBA_REASON_TIMEOUT : Nat := 39

/-- Modelled from the spec: the fixed session setup timeout armed on the
pending record by TsInitAddBA (a constant from rtl819x_BA.h, not in this
tree); only its nonzero-ness matters to the claims. -/
def BA_SETUP_TIMEOUT : Nat := 200

/-- Modelled from the spec: size in bytes of the transport header
(struct rtl_80211_hdr_3addr, defined in ieee80211.h, not in this tree)
prefixed to every action frame body: frame control(2) + duration(2) +
three 6-byte addresses + sequence control(2) = 24. -/
def hdr3addrSize : Nat := 24

/-- Modelled from the spec: the BA Parameter Set bitfields of
union BA_PARAM_SET (rtl819x_BA.h, not in this tree), per the 802.11
layout the spec names: bit 0 = A-MSDU support, bit 1 = BA policy,
bits 2-5 = TID, bits 6-15 = buffer size. -/
structure BA_PARAM_SET where
  AMSDU_Support : Nat
  BAPolicy : Nat
  TID : Nat
  BufferSize : Nat
deriving DecidableEq, Repr

/-- Pack the BA Parameter Set bitfields into the 16-bit shortData view. -/
def BA_PARAM_SET.shortData (p : BA_PARAM_SET) : Nat :=
  p.AMSDU_Support % 2 + 2 * (p.BAPolicy % 2) + 4 * (p.TID % 16) +
    64 * (p.BufferSize % 1024)

/-- Unpack a 16-bit value into the BA Parameter Set bitfields. -/
def BA_PARAM_SET.ofShort (s : Nat) : BA_PARAM_SET :=
  { AMSDU_Support := s % 2, BAPolicy := s / 2 % 2, TID := s / 4 % 16,
    BufferSize := s / 64 % 1024 }

/-- Modelled from the spec: union SEQUENCE_CONTROL (rtl819x_BA.h, not in
this tree): fragment number (4 bits) then starting sequence number
(12 bits). -/
structure SEQUENCE_CONTROL where
  FragNum : Nat
  SeqNum : Nat
deriving DecidableEq, Repr

/-- Pack the sequence-control fields into the 16-bit ShortData view. -/
def SEQUENCE_CONTROL.ShortData (c : SEQUENCE_CONTROL) : Nat :=
  c.FragNum % 16 + 16 * (c.SeqNum % 4096)

/-- Unpack a 16-bit value into the sequence-control fields. -/
def SEQUENCE_CONTROL.ofShort (s : Nat) : SEQUENCE_CONTROL :=
  { FragNum := s % 16, SeqNum := s / 16 % 4096 }

/-- Modelled from the spec: the initiator bit of union DELBA_PARAM_SET
(rtl819x_BA.h, not in this tree), 802.11 layout: 11 reserved bits,
initiator bit 11, TID bits 12-15. -/
def delbaInitiator (s : Nat) : Nat := s / 2 ^ 11 % 2

/-- Modelled from the spec: the TID field of union DELBA_PARAM_SET. -/
def delbaTID (s : Nat) : Nat := s / 2 ^ 12 % 16

/-- struct BA_RECORD of rtl819x_BA.h, with its struct timer_list Timer
modelled as the Bool `timerArmed`. -/
structure BA_RECORD where
  bValid : Bool
  DialogToken : Nat
  BaParamSet : BA_PARAM_SET
  BaTimeoutValue : Nat
  BaStartSeqCtrl : SEQUENCE_CONTROL
  timerArmed : Bool
deriving DecidableEq, Repr

/-- struct tx_ts_record, flattened to the fields rtl819x_BAProc.c touches
(uc_tsid abbreviates ts_common_info.t_spec.ts_info.uc_tsid; the peer
address is owned by the transport and not modelled). -/
structure tx_ts_record where
  tx_admitted_ba_record : BA_RECORD
  tx_pending_ba_record : BA_RECORD
  add_ba_req_in_progress : Bool
  add_ba_req_delayed : Bool
  using_ba : Bool
  tx_cur_seq : Nat
  uc_tsid : Nat
  ts_add_ba_timer_armed : Bool
deriving DecidableEq, Repr

/-- struct rx_ts_record, restricted to the field rtl819x_BAProc.c touches. -/
structure rx_ts_record where
  rx_admitted_ba_record : BA_RECORD
deriving DecidableEq, Repr

/-- The capability flags of struct ieee80211_device that the BA handlers
consult (current_network.qos_data.active, pHTInfo->bCurrentHTSupport,
pHTInfo->bCurrentAMPDUEnable, GetHalfNmodeSupportByAPsHandler). -/
structure ieee80211_device where
  qos_active : Bool
  bCurrentHTSupport : Bool
  bCurrentAMPDUEnable : Bool
  halfNmode : Bool
deriving DecidableEq, Repr

/-- enum tr_select of ieee80211.h: transmit or receive direction. -/
inductive tr_select where
  | TX_DIR
  | RX_DIR
deriving DecidableEq, Repr

/-- One outbound management frame handed to softmac_mgmt_xmit, carrying
exactly the action-body fields the codec writes for each frame type. -/
inductive OutFrame where
  | addbaReq (dialogToken : Nat) (params : BA_PARAM_SET) (timeoutValue : Nat)
      (startSeqShort : Nat)
  | addbaRsp (dialogToken : Nat) (statusCode : Nat) (params : BA_PARAM_SET)
      (timeoutValue : Nat)
  | delba (tid : Nat) (initiator : Nat) (reasonCode : Nat)
deriving DecidableEq, Repr

/-- ActivateBAEntry: set bValid and, when Time is nonzero, arm the
record's timer via mod_timer. -/
def ActivateBAEntry (pBA : BA_RECORD) (Time : Nat) : BA_RECORD :=
  let pBA := { pBA with bValid := true }
  if Time ≠ 0 then { pBA with timerArmed := true } else pBA

/-- DeActivateBAEntry: clear bValid and cancel the record's timer via
del_timer_sync. -/
def DeActivateBAEntry (pBA : BA_RECORD) : BA_RECORD :=
  { pBA with bValid := false, timerArmed := false }

/-- TxTsDeleteBA: deactivate the pending and admitted BA entries of a TX
TS when valid; returns the flag telling the caller whether a DELBA should
be sent. -/
def TxTsDeleteBA (pTxTs : tx_ts_record) : tx_ts_record × Bool :=
  let pPendingBa := pTxTs.tx_pending_ba_record
  let pAdmittedBa := pTxTs.tx_admitted_ba_record
  let p1 := if pPendingBa.bValid then DeActivateBAEntry pPendingBa else pPendingBa
  let a1 := if pAdmittedBa.bValid then DeActivateBAEntry pAdmittedBa else pAdmittedBa
  ({ pTxTs with tx_pending_ba_record := p1, tx_admitted_ba_record := a1 },
   pPendingBa.bValid || pAdmittedBa.bValid)

/-- RxTsDeleteBA: deactivate the admitted BA entry of an RX TS when
valid; returns the send-DELBA flag. -/
def RxTsDeleteBA (pRxTs : rx_ts_record) : rx_ts_record × Bool :=
  if pRxTs.rx_admitted_ba_record.bValid then
    ({ rx_admitted_ba_record := DeActivateBAEntry pRxTs.rx_admitted_ba_record },
     true)
  else (pRxTs, false)

/-- ResetBaEntry: zero all logical fields of a BA record.  Note the C
function clears bValid but does not touch the record's timer. -/
def ResetBaEntry (pBA : BA_RECORD) : BA_RECORD :=
  { pBA with bValid := false,
             BaParamSet := { AMSDU_Support := 0, BAPolicy := 0, TID := 0,
                             BufferSize := 0 },
             BaTimeoutValue := 0,
             DialogToken := 0,
             BaStartSeqCtrl := { FragNum := 0, SeqNum := 0 } }

/-- Little-endian encoding of a 16-bit value as two bytes
(put_unaligned_le16). -/
def le16 (n : Nat) : List Nat := [n % 256, n / 256 % 256]

/-- ieee80211_ADDBA: build an ADDBA-Request or ADDBA-Response frame.  The
24 header bytes (addressing, filled by the transport) are abstracted as
zeros; the 9-byte action body is category, action, dialog token, then for
a response the LE16 status code, the LE16 BA parameter set, the LE16
timeout, and for a request the 2-byte start sequence control. -/
def ieee80211_ADDBA (pBA : BA_RECORD) (StatusCode : Nat) (type : Nat) :
    List Nat :=
  List.replicate hdr3addrSize 0 ++
    [ACT_CAT_BA, type, pBA.DialogToken % 256] ++
    (if type = ACT_ADDBARSP then le16 StatusCode else []) ++
    le16 pBA.BaParamSet.shortData ++
    le16 pBA.BaTimeoutValue ++
    (if type = ACT_ADDBAREQ then le16 pBA.BaStartSeqCtrl.ShortData else [])

/-- Byte i of an skb; bytes beyond the buffer (an out-of-bounds read in
the C code) carry the unspecified value 0. -/
def byteAt (skb : List Nat) (i : Nat) : Nat := skb.getD i 0

/-- Little-endian 16-bit read at byte offset i of an skb. -/
def le16At (skb : List Nat) (i : Nat) : Nat :=
  byteAt skb i + 256 * byteAt skb (i + 1)

/-- The four fields ieee80211_rx_ADDBAReq extracts from a received
ADDBA-Request. -/
structure DecodedAddbaReq where
  dialogToken : Nat
  paramShort : Nat
  timeoutValue : Nat
  startSeqShort : Nat
deriving DecidableEq, Repr

/-- The field offsets used by ieee80211_rx_ADDBAReq: with tag at the end
of the header, pDialogToken = tag + 2, pBaParamSet = tag + 3,
pBaTimeoutVal = tag + 5, but pBaStartSeqCtrl = (PSEQUENCE_CONTROL)(req + 7)
-- pointer arithmetic on the header struct pointer, hence byte offset
7 * sizeof(header) = 168, not tag + 7 = header + 7. -/
def decode_ADDBAReq_fields (skb : List Nat) : DecodedAddbaReq :=
  { dialogToken := byteAt skb (hdr3addrSize + 2),
    paramShort := le16At skb (hdr3addrSize + 3),
    timeoutValue := le16At skb (hdr3addrSize + 5),
    startSeqShort := le16At skb (7 * hdr3addrSize) }

/-- ieee80211_rx_ADDBAReq: handle a received ADDBA-Request.  The GetTs
lookup for (addr2, TID, RX_DIR, create) is abstracted as the Option
argument.  Returns the C return value, the updated lookup result, and the
outbound frames.  Every failure path sends one ADDBA-Response echoing the
received dialog token, parameter set (policy forced to Immediate) and
timeout with the failure status. -/
def ieee80211_rx_ADDBAReq (ieee : ieee80211_device) (skb : List Nat)
    (tsLookup : Option rx_ts_record) :
    Int × Option rx_ts_record × List OutFrame :=
  if skb.length < hdr3addrSize + 9 then
    (-1, tsLookup, [])
  else
    let d := decode_ADDBAReq_fields skb
    let pBaParamSet := BA_PARAM_SET.ofShort d.paramShort
    let failRsp := fun (rc : Nat) =>
      OutFrame.addbaRsp d.dialogToken rc
        { pBaParamSet with BAPolicy := BA_POLICY_IMMEDIATE } d.timeoutValue
    if ieee.qos_active = false ∨ ieee.bCurrentHTSupport = false then
      (0, tsLookup, [failRsp ADDBA_STATUS_REFUSED])
    else
      match tsLookup with
      | none => (0, none, [failRsp ADDBA_STATUS_REFUSED])
      | some pTS =>
        if pBaParamSet.BAPolicy = BA_POLICY_DELAYED then
          (0, some pTS, [failRsp ADDBA_STATUS_INVALID_PARAM])
        else
          let pBA := DeActivateBAEntry pTS.rx_admitted_ba_record
          let pBA := { pBA with
            DialogToken := d.dialogToken,
            BaParamSet := pBaParamSet,
            BaTimeoutValue := d.timeoutValue,
            BaStartSeqCtrl := SEQUENCE_CONTROL.ofShort d.startSeqShort }
          let pBA := { pBA with BaParamSet :=
            { pBA.BaParamSet with
              BufferSize := if ieee.halfNmode then 1 else 32 } }
          let pBA := ActivateBAEntry pBA pBA.BaTimeoutValue
          (0, some { rx_admitted_ba_record := pBA },
           [OutFrame.addbaRsp pBA.DialogToken ADDBA_STATUS_SUCCESS
              pBA.BaParamSet pBA.BaTimeoutValue])

/-- ieee80211_rx_ADDBARsp: handle a received ADDBA-Response.  The GetTs
lookup for (addr2, TID, TX_DIR, no-create) is abstracted as the Option
argument.  Field offsets: dialog token at tag+2, status code at tag+3,
parameter set at tag+5, timeout at tag+7.  Every reject path sends one
DELBA whose parameter set is the frame's (hence the frame's TID) with
initiator TX (1). -/
def ieee80211_rx_ADDBARsp (ieee : ieee80211_device) (skb : List Nat)
    (tsLookup : Option tx_ts_record) :
    Int × Option tx_ts_record × List OutFrame :=
  if skb.length < hdr3addrSize + 9 then
    (-1, tsLookup, [])
  else
    let pDialogToken := byteAt skb (hdr3addrSize + 2)
    let pStatusCode := le16At skb (hdr3addrSize + 3)
    let pBaParamSet := BA_PARAM_SET.ofShort (le16At skb (hdr3addrSize + 5))
    let pBaTimeoutVal := le16At skb (hdr3addrSize + 7)
    let rejectDelba := fun (ReasonCode : Nat) =>
      OutFrame.delba pBaParamSet.TID 1 ReasonCode
    if ieee.qos_active = false ∨ ieee.bCurrentHTSupport = false ∨
        ieee.bCurrentAMPDUEnable = false then
      (0, tsLookup, [rejectDelba DELBA_REASON_UNKNOWN_BA])
    else
      match tsLookup with
      | none => (0, none, [rejectDelba DELBA_REASON_UNKNOWN_BA])
      | some pTS0 =>
        let pTS := { pTS0 with add_ba_req_in_progress := false }
        if pTS.tx_admitted_ba_record.bValid then
          (-1, some pTS, [])
        else if pTS.tx_pending_ba_record.bValid = false ∨
            pDialogToken ≠ pTS.tx_pending_ba_record.DialogToken then
          (0, some pTS, [rejectDelba DELBA_REASON_UNKNOWN_BA])
        else
          let pTS := { pTS with
            tx_pending_ba_record := DeActivateBAEntry pTS.tx_pending_ba_record }
          if pStatusCode = ADDBA_STATUS_SUCCESS then
            if pBaParamSet.BAPolicy = BA_POLICY_DELAYED then
              let pTS := { pTS with
                add_ba_req_delayed := true,
                tx_admitted_ba_record :=
                  DeActivateBAEntry pTS.tx_admitted_ba_record }
              (0, some pTS, [rejectDelba DELBA_REASON_END_BA])
            else
              let pAdmittedBA := { pTS.tx_admitted_ba_record with
                DialogToken := pDialogToken,
                BaTimeoutValue := pBaTimeoutVal,
                BaStartSeqCtrl := pTS.tx_pending_ba_record.BaStartSeqCtrl,
                BaParamSet := pBaParamSet }
              let pAdmittedBA :=
                ActivateBAEntry (DeActivateBAEntry pAdmittedBA) pBaTimeoutVal
              (0, some { pTS with tx_admitted_ba_record := pAdmittedBA }, [])
          else
            (0, some { pTS with add_ba_req_delayed := true }, [])

/-- ieee80211_rx_DELBA: handle a received DELBA.  The DELBA parameter set
is read LE16 at payload offset 2; depending on its initiator bit the RX
or the TX TS lookup (both abstracted as Options) is used.  The handler
sends no frame. -/
def ieee80211_rx_DELBA (ieee : ieee80211_device) (skb : List Nat)
    (rxLookup : Option rx_ts_record) (txLookup : Option tx_ts_record) :
    Int × Option rx_ts_record × Option tx_ts_record × List OutFrame :=
  if skb.length < hdr3addrSize + 6 then
    (-1, rxLookup, txLookup, [])
  else if ieee.qos_active = false ∨ ieee.bCurrentHTSupport = false then
    (-1, rxLookup, txLookup, [])
  else
    let pDelBaParamSet := le16At skb (hdr3addrSize + 2)
    if delbaInitiator pDelBaParamSet = 1 then
      match rxLookup with
      | none => (-1, none, txLookup, [])
      | some pRxTs => (0, some (RxTsDeleteBA pRxTs).1, txLookup, [])
    else
      match txLookup with
      | none => (-1, rxLookup, none, [])
      | some pTxTs =>
        let pTxTs := { pTxTs with
          using_ba := false,
          add_ba_req_in_progress := false,
          add_ba_req_delayed := false,
          ts_add_ba_timer_armed := false }
        (0, rxLookup, some (TxTsDeleteBA pTxTs).1, [])

/-- TsInitAddBA: initiate an ADDBA negotiation on the TX side.  When the
pending record is valid and overwriting is not requested, no-op;
otherwise deactivate the pending record, bump the dialog token (u8),
populate the parameter set (no A-MSDU, the given policy, the TS's TID,
buffer size 32), zero the timeout, set the start sequence number to
tx_cur_seq + 3 mod 4096, activate with BA_SETUP_TIMEOUT and send an
ADDBA-Request built from the pending record. -/
def TsInitAddBA (ieee : ieee80211_device) (pTS : tx_ts_record) (Policy : Nat)
    (bOverwritePending : Bool) : tx_ts_record × List OutFrame :=
  if pTS.tx_pending_ba_record.bValid = true ∧ bOverwritePending = false then
    (pTS, [])
  else
    let pBA := DeActivateBAEntry pTS.tx_pending_ba_record
    let pBA := { pBA with DialogToken := (pBA.DialogToken + 1) % 256 }
    let pBA := { pBA with BaParamSet :=
      { AMSDU_Support := 0, BAPolicy := Policy % 2, TID := pTS.uc_tsid % 16,
        BufferSize := 32 } }
    let pBA := { pBA with BaTimeoutValue := 0 }
    let pBA := { pBA with BaStartSeqCtrl :=
      { pBA.BaStartSeqCtrl with SeqNum := (pTS.tx_cur_seq + 3) % 4096 } }
    let pBA := ActivateBAEntry pBA BA_SETUP_TIMEOUT
    ({ pTS with tx_pending_ba_record := pBA },
     [OutFrame.addbaReq pBA.DialogToken pBA.BaParamSet pBA.BaTimeoutValue
        pBA.BaStartSeqCtrl.ShortData])

/-- TsInitDelBA: locally terminate the BA session of a TS in the given
direction; when at least one record was valid, send one DELBA with reason
EndBA, selecting the record whose parameter set is sent by re-testing
tx_admitted.bValid after the deletion. -/
def TsInitDelBA (TxRxSelect : tr_select) (txTs : tx_ts_record)
    (rxTs : rx_ts_record) : tx_ts_record × rx_ts_record × List OutFrame :=
  match TxRxSelect with
  | tr_select.TX_DIR =>
    let res := TxTsDeleteBA txTs
    if res.2 then
      let sel := if res.1.tx_admitted_ba_record.bValid then
          res.1.tx_admitted_ba_record
        else res.1.tx_pending_ba_record
      (res.1, rxTs,
       [OutFrame.delba sel.BaParamSet.TID 1 DELBA_REASON_END_BA])
    else (res.1, rxTs, [])
  | tr_select.RX_DIR =>
    let res := RxTsDeleteBA rxTs
    if res.2 then
      (txTs, res.1,
       [OutFrame.delba res.1.rx_admitted_ba_record.BaParamSet.TID 0
          DELBA_REASON_END_BA])
    else (txTs, res.1, [])

/-- BaSetupTimeOut: the pending record's setup timer fired (so that timer
is no longer pending); clear the in-progress flag, set the delayed flag
and invalidate the pending record directly. -/
def BaSetupTimeOut (pTxTs : tx_ts_record) : tx_ts_record :=
  { pTxTs with
    add_ba_req_in_progress := false,
    add_ba_req_delayed := true,
    tx_pending_ba_record := { pTxTs.tx_pending_ba_record with
      bValid := false, timerArmed := false } }

/-- TxBaInactTimeout: the admitted record's inactivity timer fired;
delete the TX BA entries and send one DELBA with reason Timeout carrying
the admitted record's TID. -/
def TxBaInactTimeout (pTxTs : tx_ts_record) : tx_ts_record × List OutFrame :=
  let pTxTs := { pTxTs with tx_admitted_ba_record :=
    { pTxTs.tx_admitted_ba_record with timerArmed := false } }
  let res := TxTsDeleteBA pTxTs
  (res.1,
   [OutFrame.delba res.1.tx_admitted_ba_record.BaParamSet.TID 1
      DELBA_REASON_TIMEOUT])

/-- RxBaInactTimeout: the RX admitted record's inactivity timer fired;
delete the RX BA entry and send one DELBA with reason Timeout. -/
def RxBaInactTimeout (pRxTs : rx_ts_record) : rx_ts_record × List OutFrame :=
  let pRxTs := { pRxTs with rx_admitted_ba_record :=
    { pRxTs.rx_admitted_ba_record with timerArmed := false } }
  let res := RxTsDeleteBA pRxTs
  (res.1,
   [OutFrame.delba res.1.rx_admitted_ba_record.BaParamSet.TID 0
      DELBA_REASON_TIMEOUT])

/-- The pending record TsInitAddBA builds in its non-no-op path. -/
def newPendingBA (pTS : tx_ts_record) (Policy : Nat) : BA_RECORD :=
  { bValid := true,
    DialogToken := (pTS.tx_pending_ba_record.DialogToken + 1) % 256,
    BaParamSet := { AMSDU_Support := 0, BAPolicy := Policy % 2,
                    TID := pTS.uc_tsid % 16, BufferSize := 32 },
    BaTimeoutValue := 0,
    BaStartSeqCtrl :=
      { FragNum := pTS.tx_pending_ba_record.BaStartSeqCtrl.FragNum,
        SeqNum := (pTS.tx_cur_seq + 3) % 4096 },
    timerArmed := true }

theorem TsInitAddBA_run (ieee : ieee80211_device) (pTS : tx_ts_record)
    (Policy : Nat) (ow : Bool)
    (h : ¬ (pTS.tx_pending_ba_record.bValid = true ∧ ow = false)) :
    TsInitAddBA ieee pTS Policy ow =
      ({ pTS with tx_pending_ba_record := newPendingBA pTS Policy },
       [OutFrame.addbaReq (newPendingBA pTS Policy).DialogToken
          (newPendingBA pTS Policy).BaParamSet
          (newPendingBA pTS Policy).BaTimeoutValue
          (newPendingBA pTS Policy).BaStartSeqCtrl.ShortData]) := by
  unfold TsInitAddBA
  rw [if_neg h]
  simp [newPendingBA, ActivateBAEntry, DeActivateBAEntry, BA_SETUP_TIMEOUT]

/-- A concrete BA record exercising the ADDBA-Request round trip. -/
def rtRecord : BA_RECORD :=
  { bValid := true, DialogToken := 7,
    BaParamSet :=
      { AMSDU_Support := 1, BAPolicy := 1, TID := 3, BufferSize := 32 },
    BaTimeoutValue := 100,
    BaStartSeqCtrl := { FragNum := 0, SeqNum := 5 },
    timerArmed := false }

/-- Claim C2, as the code behaves: encoding an ADDBA-Request and decoding
the frame with the offsets of ieee80211_rx_ADDBAReq returns the dialog
token, parameter set and timeout unchanged, but the start sequence
control is read at (req + 7) -- pointer arithmetic on the header struct
pointer, byte offset 7 * 24 = 168 -- while the encoder wrote the field at
header + 7 = byte 31.  The read lands past the end of the 33-byte frame,
so for the concrete record (start sequence 80) decoding returns 0, not
80: the round trip fails for start_sequence_control. -/
theorem C2_addba_req_roundtrip_bug :
    (decode_ADDBAReq_fields (ieee80211_ADDBA rtRecord 0 ACT_ADDBAREQ)).dialogToken
        = rtRecord.DialogToken ∧
    (decode_ADDBAReq_fields (ieee80211_ADDBA rtRecord 0 ACT_ADDBAREQ)).paramShort
        = rtRecord.BaParamSet.shortData ∧
    (decode_ADDBAReq_fields (ieee80211_ADDBA rtRecord 0 ACT_ADDBAREQ)).timeoutValue
        = rtRecord.BaTimeoutValue ∧
    rtRecord.BaStartSeqCtrl.ShortData = 80 ∧
    (decode_ADDBAReq_fields (ieee80211_ADDBA rtRecord 0 ACT_ADDBAREQ)).startSeqShort
        = 0 ∧
    (ieee80211_ADDBA rtRecord 0 ACT_ADDBAREQ).length ≤ 7 * hdr3addrSize := by
  decide

/-- Claim C8: a frame shorter than header size + 9 makes the two ADDBA
handlers, and shorter than header size + 6 makes the DELBA handler,
return -1, send no frame and leave the TS records untouched. -/
theorem C8_short_frame_rejected (ieee : ieee80211_device) (skb : List Nat)
    (rxl : Option rx_ts_record) (txl : Option tx_ts_record) :
    (skb.length < hdr3addrSize + 9 →
      ieee80211_rx_ADDBAReq ieee skb rxl = (-1, rxl, []) ∧
      ieee80211_rx_ADDBARsp ieee skb txl = (-1, txl, [])) ∧
    (skb.length < hdr3addrSize + 6 →
      ieee80211_rx_DELBA ieee skb rxl txl = (-1, rxl, txl, [])) := by
  refine ⟨fun h => ⟨?_, ?_⟩, fun h => ?_⟩
  · unfold ieee80211_rx_ADDBAReq
    rw [if_pos h]
  · unfold ieee80211_rx_ADDBARsp
    rw [if_pos h]
  · unfold ieee80211_rx_DELBA
    rw [if_pos h]

/-- A device with QoS, HT and A-MPDU all active on a full-rate link. -/
def devAllOn : ieee80211_device :=
  { qos_active := true, bCurrentHTSupport := true,
    bCurrentAMPDUEnable := true, halfNmode := false }

theorem C8_short_frame_rejected_witness :
    ieee80211_rx_ADDBAReq devAllOn [] none = (-1, none, []) ∧
    ieee80211_rx_ADDBARsp devAllOn [] none = (-1, none, []) ∧
    ieee80211_rx_DELBA devAllOn [] none none = (-1, none, none, []) := by
  have h := C8_short_frame_rejected devAllOn [] none none
  exact ⟨(h.1 (by decide)).1, (h.1 (by decide)).2, h.2 (by decide)⟩

/-- A device on a half-rate ("half N mode") link, QoS/HT/A-MPDU active. -/
def devHalfRate : ieee80211_device :=
  { qos_active := true, bCurrentHTSupport := true,
    bCurrentAMPDUEnable := true, halfNmode := true }

/-- A TX TS with both BA records idle, TID 3, current sequence 100. -/
def idleTxTs : tx_ts_record :=
  { tx_admitted_ba_record :=
      { bValid := false, DialogToken := 0,
        BaParamSet :=
          { AMSDU_Support := 0, BAPolicy := 0, TID := 0, BufferSize := 0 },
        BaTimeoutValue := 0,
        BaStartSeqCtrl := { FragNum := 0, SeqNum := 0 },
        timerArmed := false },
    tx_pending_ba_record :=
      { bValid := false, DialogToken := 0,
        BaParamSet :=
          { AMSDU_Support := 0, BAPolicy := 0, TID := 0, BufferSize := 0 },
        BaTimeoutValue := 0,
        BaStartSeqCtrl := { FragNum := 0, SeqNum := 0 },
        timerArmed := false },
    add_ba_req_in_progress := false,
    add_ba_req_delayed := false,
    using_ba := false,
    tx_cur_seq := 100,
    uc_tsid := 3,
    ts_add_ba_timer_armed := false }

/-- Claim C3 counterexample: on a half-rate link TsInitAddBA still sets
the pending record's buffer size to 32, not 1 -- the half-rate test lives
only in the RX ADDBA-Request path; TsInitAddBA never consults the device. -/
theorem C3_buffer_size_counterexample :
    devHalfRate.halfNmode = true ∧
    (TsInitAddBA devHalfRate idleTxTs BA_POLICY_IMMEDIATE
        false).1.tx_pending_ba_record.BaParamSet.BufferSize = 32 ∧
    ¬ (TsInitAddBA devHalfRate idleTxTs BA_POLICY_IMMEDIATE
        false).1.tx_pending_ba_record.BaParamSet.BufferSize = 1 := by
  refine ⟨rfl, ?_, ?_⟩ <;> decide

/-- Claim C3 as amended: in every non-no-op call, TsInitAddBA populates
the pending record with A-MSDU unsupported, the given policy, the TS's
TID, buffer size 32 regardless of the link's rate mode, timeout 0, start
sequence number (tx_cur_seq + 3) mod 4096 and the incremented (mod 256)
dialog token, activates it, and sends exactly one ADDBA-Request carrying
those populated values. -/
theorem C3_populate_pending (ieee : ieee80211_device) (pTS : tx_ts_record)
    (Policy : Nat) (ow : Bool)
    (h : ¬ (pTS.tx_pending_ba_record.bValid = true ∧ ow = false)) :
    ((TsInitAddBA ieee pTS Policy ow).1.tx_pending_ba_record.bValid = true ∧
     (TsInitAddBA ieee pTS Policy ow).1.tx_pending_ba_record.DialogToken
        = (pTS.tx_pending_ba_record.DialogToken + 1) % 256 ∧
     (TsInitAddBA ieee pTS Policy ow).1.tx_pending_ba_record.BaParamSet
        = { AMSDU_Support := 0, BAPolicy := Policy % 2,
            TID := pTS.uc_tsid % 16, BufferSize := 32 } ∧
     (TsInitAddBA ieee pTS Policy ow).1.tx_pending_ba_record.BaTimeoutValue
        = 0 ∧
     (TsInitAddBA ieee pTS Policy ow).1.tx_pending_ba_record.BaStartSeqCtrl.SeqNum
        = (pTS.tx_cur_seq + 3) % 4096) ∧
    (TsInitAddBA ieee pTS Policy ow).2 =
      [OutFrame.addbaReq
        ((pTS.tx_pending_ba_record.DialogToken + 1) % 256)
        { AMSDU_Support := 0, BAPolicy := Policy % 2,
          TID := pTS.uc_tsid % 16, BufferSize := 32 }
        0
        ({ FragNum := pTS.tx_pending_ba_record.BaStartSeqCtrl.FragNum,
           SeqNum := (pTS.tx_cur_seq + 3) % 4096
           : SEQUENCE_CONTROL }).ShortData] := by
  rw [TsInitAddBA_run ieee pTS Policy ow h]
  simp [newPendingBA]

theorem C3_populate_pending_witness :
    ((TsInitAddBA devAllOn idleTxTs 1 false).1.tx_pending_ba_record.bValid
        = true ∧
     (TsInitAddBA devAllOn idleTxTs 1
        false).1.tx_pending_ba_record.DialogToken = (0 + 1) % 256 ∧
     (TsInitAddBA devAllOn idleTxTs 1 false).1.tx_pending_ba_record.BaParamSet
        = { AMSDU_Support := 0, BAPolicy := 1 % 2, TID := 3 % 16,
            BufferSize := 32 } ∧
     (TsInitAddBA devAllOn idleTxTs 1
        false).1.tx_pending_ba_record.BaTimeoutValue = 0 ∧
     (TsInitAddBA devAllOn idleTxTs 1
        false).1.tx_pending_ba_record.BaStartSeqCtrl.SeqNum
        = (100 + 3) % 4096) ∧
    (TsInitAddBA devAllOn idleTxTs 1 false).2 =
      [OutFrame.addbaReq ((0 + 1) % 256)
        { AMSDU_Support := 0, BAPolicy := 1 % 2, TID := 3 % 16,
          BufferSize := 32 }
        0
        ({ FragNum := 0, SeqNum := (100 + 3) % 4096
           : SEQUENCE_CONTROL }).ShortData] :=
  C3_populate_pending devAllOn idleTxTs 1 false (by decide)

/-- A device with QoS inactive (HT and A-MPDU on, full rate). -/
def devQosOff : ieee80211_device :=
  { qos_active := false, bCurrentHTSupport := true,
    bCurrentAMPDUEnable := true, halfNmode := false }

/-- An RX TS with an idle admitted record. -/
def idleRxTs : rx_ts_record :=
  { rx_admitted_ba_record :=
      { bValid := false, DialogToken := 0,
        BaParamSet :=
          { AMSDU_Support := 0, BAPolicy := 0, TID := 0, BufferSize := 0 },
        BaTimeoutValue := 0,
        BaStartSeqCtrl := { FragNum := 0, SeqNum := 0 },
        timerArmed := false } }

/-- A 33-byte ADDBA-Request frame with dialog token 9 and a parameter set
whose policy bit is Delayed (0) and TID is 2 (shortData 8). -/
def delayedReqFrame : List Nat :=
  List.replicate hdr3addrSize 0 ++ [ACT_CAT_BA, ACT_ADDBAREQ, 9, 8, 0, 0, 0, 0, 0]

/-- Claim C5 counterexample: a received ADDBA-Request with policy Delayed
handled while QoS is inactive is answered with status Refused, not
InvalidParameter -- the capability check fires before the policy check,
so the claim's "always" fails. -/
theorem C5_delayed_policy_counterexample :
    (BA_PARAM_SET.ofShort
        (le16At delayedReqFrame (hdr3addrSize + 3))).BAPolicy
      = BA_POLICY_DELAYED ∧
    (ieee80211_rx_ADDBAReq devQosOff delayedReqFrame (some idleRxTs)).2.2 =
      [OutFrame.addbaRsp 9 ADDBA_STATUS_REFUSED
        { AMSDU_Support := 0, BAPolicy := BA_POLICY_IMMEDIATE, TID := 2,
          BufferSize := 0 } 0] ∧
    ¬ ADDBA_STATUS_REFUSED = ADDBA_STATUS_INVALID_PARAM := by
  refine ⟨by decide, by decide, by decide⟩

/-- Claim C5 as amended: when the frame is long enough, QoS and HT are
active and an RX TS is found, a received ADDBA-Request whose policy is
Delayed yields exactly one ADDBA-Response with status InvalidParameter
echoing the received dialog token, parameter set (policy forced to
Immediate) and timeout, and leaves the TS -- in particular rx_admitted --
untouched. -/
theorem C5_delayed_policy_rejected (ieee : ieee80211_device)
    (skb : List Nat) (pTS : rx_ts_record)
    (hq : ieee.qos_active = true) (hht : ieee.bCurrentHTSupport = true)
    (hlen : hdr3addrSize + 9 ≤ skb.length)
    (hpol : (BA_PARAM_SET.ofShort
        (le16At skb (hdr3addrSize + 3))).BAPolicy = BA_POLICY_DELAYED) :
    ieee80211_rx_ADDBAReq ieee skb (some pTS) =
      (0, some pTS,
       [OutFrame.addbaRsp (byteAt skb (hdr3addrSize + 2))
          ADDBA_STATUS_INVALID_PARAM
          { BA_PARAM_SET.ofShort (le16At skb (hdr3addrSize + 3)) with
            BAPolicy := BA_POLICY_IMMEDIATE }
          (le16At skb (hdr3addrSize + 5))]) := by
  unfold ieee80211_rx_ADDBAReq
  rw [if_neg (Nat.not_lt.mpr hlen)]
  simp [decode_ADDBAReq_fields, hq, hht, hpol]

theorem C5_delayed_policy_rejected_witness :
    ieee80211_rx_ADDBAReq devAllOn delayedReqFrame (some idleRxTs) =
      (0, some idleRxTs,
       [OutFrame.addbaRsp (byteAt delayedReqFrame (hdr3addrSize + 2))
          ADDBA_STATUS_INVALID_PARAM
          { BA_PARAM_SET.ofShort (le16At delayedReqFrame (hdr3addrSize + 3)) with
            BAPolicy := BA_POLICY_IMMEDIATE }
          (le16At delayedReqFrame (hdr3addrSize + 5))]) :=
  C5_delayed_policy_rejected devAllOn delayedReqFrame idleRxTs rfl rfl
    (by decide) (by decide)

/-- Claim C10: a TX-direction TsInitDelBA in which at least one of the
pending/admitted records was valid sends exactly one DELBA with reason
EndBA whose TID is taken from the tx_pending record; the tx_admitted
branch of the record selection is dead because TxTsDeleteBA has already
cleared tx_admitted.bValid before the selection runs. -/
theorem C10_delba_params_from_pending (txTs : tx_ts_record)
    (rxTs : rx_ts_record)
    (h : txTs.tx_pending_ba_record.bValid = true ∨
         txTs.tx_admitted_ba_record.bValid = true) :
    (TsInitDelBA tr_select.TX_DIR txTs rxTs).2.2 =
      [OutFrame.delba txTs.tx_pending_ba_record.BaParamSet.TID 1
        DELBA_REASON_END_BA] ∧
    (TsInitDelBA tr_select.TX_DIR txTs rxTs).1.tx_admitted_ba_record.bValid
      = false := by
  cases hp : txTs.tx_pending_ba_record.bValid <;>
    cases ha : txTs.tx_admitted_ba_record.bValid <;>
    simp_all [TsInitDelBA, TxTsDeleteBA, DeActivateBAEntry]

theorem C10_delba_params_from_pending_witness :
    (TsInitDelBA tr_select.TX_DIR
        (TsInitAddBA devAllOn idleTxTs 1 false).1 idleRxTs).2.2 =
      [OutFrame.delba
        (TsInitAddBA devAllOn idleTxTs 1
          false).1.tx_pending_ba_record.BaParamSet.TID 1
        DELBA_REASON_END_BA] ∧
    (TsInitDelBA tr_select.TX_DIR
        (TsInitAddBA devAllOn idleTxTs 1 false).1
        idleRxTs).1.tx_admitted_ba_record.bValid = false :=
  C10_delba_params_from_pending (TsInitAddBA devAllOn idleTxTs 1 false).1
    idleRxTs (Or.inl (by decide))

/-- The flag clearing ieee80211_rx_DELBA performs on the TX TS before
calling TxTsDeleteBA. -/
def clearTxTsFlags (pTxTs : tx_ts_record) : tx_ts_record :=
  { pTxTs with
    using_ba := false,
    add_ba_req_in_progress := false,
    add_ba_req_delayed := false,
    ts_add_ba_timer_armed := false }

/-- Claim C6: a received DELBA with initiator 0, handled with QoS and HT
active and a TX TS found, clears using_ba, add_ba_req_in_progress and
add_ba_req_delayed, cancels the TS's add-BA timer, invalidates both the
pending and the admitted TX BA records, and sends no frame. -/
theorem C6_rx_delba_teardown (ieee : ieee80211_device) (skb : List Nat)
    (rxl : Option rx_ts_record) (pTxTs : tx_ts_record)
    (hq : ieee.qos_active = true) (hht : ieee.bCurrentHTSupport = true)
    (hlen : hdr3addrSize + 6 ≤ skb.length)
    (hinit : delbaInitiator (le16At skb (hdr3addrSize + 2)) = 0) :
    ∃ ts2,
      ieee80211_rx_DELBA ieee skb rxl (some pTxTs) =
        (0, rxl, some ts2, []) ∧
      ts2.using_ba = false ∧
      ts2.add_ba_req_in_progress = false ∧
      ts2.add_ba_req_delayed = false ∧
      ts2.ts_add_ba_timer_armed = false ∧
      ts2.tx_pending_ba_record.bValid = false ∧
      ts2.tx_admitted_ba_record.bValid = false := by
  refine ⟨(TxTsDeleteBA (clearTxTsFlags pTxTs)).1, ?_, ?_, ?_, ?_, ?_, ?_, ?_⟩
  · unfold ieee80211_rx_DELBA
    rw [if_neg (Nat.not_lt.mpr hlen)]
    simp [hq, hht, hinit, clearTxTsFlags]
  all_goals
    cases hp : pTxTs.tx_pending_ba_record.bValid <;>
      cases ha : pTxTs.tx_admitted_ba_record.bValid <;>
      simp_all [TxTsDeleteBA, DeActivateBAEntry, clearTxTsFlags]

/-- A 30-byte DELBA frame whose DELBA parameter set is 0: initiator bit
0 (sent by the non-originator), TID 0. -/
def delbaFrame0 : List Nat :=
  List.replicate hdr3addrSize 0 ++ [ACT_CAT_BA, ACT_DELBA, 0, 0, 0, 0]

theorem C6_rx_delba_teardown_witness :
    ∃ ts2,
      ieee80211_rx_DELBA devAllOn delbaFrame0 none (some idleTxTs) =
        (0, none, some ts2, []) ∧
      ts2.using_ba = false ∧
      ts2.add_ba_req_in_progress = false ∧
      ts2.add_ba_req_delayed = false ∧
      ts2.ts_add_ba_timer_armed = false ∧
      ts2.tx_pending_ba_record.bValid = false ∧
      ts2.tx_admitted_ba_record.bValid = false :=
  C6_rx_delba_teardown devAllOn delbaFrame0 none idleTxTs rfl rfl
    (by decide) (by decide)

/-- Claim C4: an ADDBA-Response handled with QoS, HT and A-MPDU active
and a TX TS found whose admitted record is invalid, carrying a dialog
token different from the pending record's, leaves tx_admitted exactly as
it was and sends exactly one DELBA with reason UnknownBA (initiator TX,
TID from the frame's parameter set). -/
theorem C4_stale_token_delba (ieee : ieee80211_device) (skb : List Nat)
    (pTS : tx_ts_record)
    (hq : ieee.qos_active = true) (hht : ieee.bCurrentHTSupport = true)
    (hampdu : ieee.bCurrentAMPDUEnable = true)
    (hlen : hdr3addrSize + 9 ≤ skb.length)
    (hadm : pTS.tx_admitted_ba_record.bValid = false)
    (htok : byteAt skb (hdr3addrSize + 2)
      ≠ pTS.tx_pending_ba_record.DialogToken) :
    ∃ pTS2,
      ieee80211_rx_ADDBARsp ieee skb (some pTS) =
        (0, some pTS2,
         [OutFrame.delba
            (BA_PARAM_SET.ofShort (le16At skb (hdr3addrSize + 5))).TID 1
            DELBA_REASON_UNKNOWN_BA]) ∧
      pTS2.tx_admitted_ba_record = pTS.tx_admitted_ba_record := by
  refine ⟨{ pTS with add_ba_req_in_progress := false }, ?_, rfl⟩
  unfold ieee80211_rx_ADDBARsp
  rw [if_neg (Nat.not_lt.mpr hlen)]
  have hcond : ({ pTS with add_ba_req_in_progress := false
      : tx_ts_record }).tx_pending_ba_record.bValid = false ∨
      byteAt skb (hdr3addrSize + 2)
        ≠ ({ pTS with add_ba_req_in_progress := false
          : tx_ts_record }).tx_pending_ba_record.DialogToken :=
    Or.inr htok
  simp [hq, hht, hampdu, hadm, hcond]

/-- A 33-byte ADDBA-Response frame with dialog token 5, status Success
and a parameter set with TID 2 (shortData 8). -/
def staleRspFrame : List Nat :=
  List.replicate hdr3addrSize 0 ++ [ACT_CAT_BA, ACT_ADDBARSP, 5, 0, 0, 8, 0, 0, 0]

theorem C4_stale_token_delba_witness :
    ∃ pTS2,
      ieee80211_rx_ADDBARsp devAllOn staleRspFrame (some idleTxTs) =
        (0, some pTS2,
         [OutFrame.delba
            (BA_PARAM_SET.ofShort (le16At staleRspFrame (hdr3addrSize + 5))).TID
            1 DELBA_REASON_UNKNOWN_BA]) ∧
      pTS2.tx_admitted_ba_record = idleTxTs.tx_admitted_ba_record :=
  C4_stale_token_delba devAllOn staleRspFrame idleTxTs rfl rfl rfl
    (by decide) (by decide) (by decide)

/-- Claim C9: whenever ieee80211_rx_ADDBARsp passes the capability checks
and finds a TX TS, the TS it returns has add_ba_req_in_progress cleared,
on every subsequent path -- also when the response is then dropped as a
duplicate or rejected for a stale dialog token. -/
theorem C9_in_progress_always_cleared (ieee : ieee80211_device)
    (skb : List Nat) (pTS : tx_ts_record)
    (hq : ieee.qos_active = true) (hht : ieee.bCurrentHTSupport = true)
    (hampdu : ieee.bCurrentAMPDUEnable = true)
    (hlen : hdr3addrSize + 9 ≤ skb.length) :
    ∃ rc pTS2 frames,
      ieee80211_rx_ADDBARsp ieee skb (some pTS) = (rc, some pTS2, frames) ∧
      pTS2.add_ba_req_in_progress = false := by
  unfold ieee80211_rx_ADDBARsp
  rw [if_neg (Nat.not_lt.mpr hlen)]
  simp only [hq, hht, hampdu]
  split
  · next h => simp at h
  · split
    · exact ⟨-1, _, [], rfl, rfl⟩
    · split
      · exact ⟨0, _, _, rfl, rfl⟩
      · split
        · split
          · exact ⟨0, _, _, rfl, rfl⟩
          · exact ⟨0, _, [], rfl, rfl⟩
        · exact ⟨0, _, [], rfl, rfl⟩

theorem C9_in_progress_always_cleared_witness :
    ∃ rc pTS2 frames,
      ieee80211_rx_ADDBARsp devAllOn staleRspFrame (some idleTxTs) =
        (rc, some pTS2, frames) ∧
      pTS2.add_ba_req_in_progress = false :=
  C9_in_progress_always_cleared devAllOn staleRspFrame idleTxTs rfl rfl rfl
    (by decide)

/-- Claim C1: TsInitAddBA followed by ieee80211_rx_ADDBARsp with QoS, HT
and A-MPDU active, a matching TX TS, a dialog token equal to the pending
record's freshly bumped token, status Success and returned policy
Immediate takes tx_admitted.bValid from false to true, copies the
response's dialog token, timeout and parameter set into tx_admitted,
keeps the start sequence chosen at initiation, and leaves
tx_pending.bValid false. -/
theorem C1_init_then_success_response (ieee : ieee80211_device)
    (pTS : tx_ts_record) (Policy : Nat) (ow : Bool) (skb : List Nat)
    (hq : ieee.qos_active = true) (hht : ieee.bCurrentHTSupport = true)
    (hampdu : ieee.bCurrentAMPDUEnable = true)
    (hnoop : ¬ (pTS.tx_pending_ba_record.bValid = true ∧ ow = false))
    (hadm : pTS.tx_admitted_ba_record.bValid = false)
    (hlen : hdr3addrSize + 9 ≤ skb.length)
    (htok : byteAt skb (hdr3addrSize + 2)
      = (TsInitAddBA ieee pTS Policy ow).1.tx_pending_ba_record.DialogToken)
    (hst : le16At skb (hdr3addrSize + 3) = ADDBA_STATUS_SUCCESS)
    (hpol : (BA_PARAM_SET.ofShort (le16At skb (hdr3addrSize + 5))).BAPolicy
      = BA_POLICY_IMMEDIATE) :
    ∃ pTS2,
      ieee80211_rx_ADDBARsp ieee skb
          (some (TsInitAddBA ieee pTS Policy ow).1) = (0, some pTS2, []) ∧
      pTS2.tx_admitted_ba_record.bValid = true ∧
      pTS2.tx_admitted_ba_record.DialogToken
        = byteAt skb (hdr3addrSize + 2) ∧
      pTS2.tx_admitted_ba_record.BaTimeoutValue
        = le16At skb (hdr3addrSize + 7) ∧
      pTS2.tx_admitted_ba_record.BaParamSet
        = BA_PARAM_SET.ofShort (le16At skb (hdr3addrSize + 5)) ∧
      pTS2.tx_admitted_ba_record.BaStartSeqCtrl.SeqNum
        = (pTS.tx_cur_seq + 3) % 4096 ∧
      pTS2.tx_pending_ba_record.bValid = false := by
  rw [TsInitAddBA_run ieee pTS Policy ow hnoop] at htok ⊢
  unfold ieee80211_rx_ADDBARsp
  rw [if_neg (Nat.not_lt.mpr hlen)]
  simp only [hq, hht, hampdu, newPendingBA] at htok ⊢
  simp [hadm, ← htok, hst, hpol, ADDBA_STATUS_SUCCESS, BA_POLICY_IMMEDIATE,
    BA_POLICY_DELAYED, ActivateBAEntry, DeActivateBAEntry, apply_ite]

/-- A 33-byte ADDBA-Response frame with dialog token 1, status Success
and a parameter set whose policy bit is Immediate (shortData 2). -/
def successRspFrame : List Nat :=
  List.replicate hdr3addrSize 0 ++ [ACT_CAT_BA, ACT_ADDBARSP, 1, 0, 0, 2, 0, 0, 0]

theorem C1_init_then_success_response_witness :
    ∃ pTS2,
      ieee80211_rx_ADDBARsp devAllOn successRspFrame
          (some (TsInitAddBA devAllOn idleTxTs 1 false).1) =
        (0, some pTS2, []) ∧
      pTS2.tx_admitted_ba_record.bValid = true ∧
      pTS2.tx_admitted_ba_record.DialogToken
        = byteAt successRspFrame (hdr3addrSize + 2) ∧
      pTS2.tx_admitted_ba_record.BaTimeoutValue
        = le16At successRspFrame (hdr3addrSize + 7) ∧
      pTS2.tx_admitted_ba_record.BaParamSet
        = BA_PARAM_SET.ofShort (le16At successRspFrame (hdr3addrSize + 5)) ∧
      pTS2.tx_admitted_ba_record.BaStartSeqCtrl.SeqNum
        = (idleTxTs.tx_cur_seq + 3) % 4096 ∧
      pTS2.tx_pending_ba_record.bValid = false :=
  C1_init_then_success_response devAllOn idleTxTs 1 false successRspFrame
    rfl rfl rfl (by decide) rfl (by decide) (by decide) (by decide) (by decide)

/-- The claimed record invariant: an invalid record has no armed timer. -/
def BaInv (r : BA_RECORD) : Prop := r.bValid = false → r.timerArmed = false

/-- The record invariant on both BA records of a TX TS. -/
def TxTsInv (ts : tx_ts_record) : Prop :=
  BaInv ts.tx_admitted_ba_record ∧ BaInv ts.tx_pending_ba_record

/-- The record invariant on the BA record of an RX TS. -/
def RxTsInv (ts : rx_ts_record) : Prop := BaInv ts.rx_admitted_ba_record

/-- The record invariant lifted over an optional RX TS lookup result. -/
def OptRxInv : Option rx_ts_record → Prop
  | none => True
  | some ts => RxTsInv ts

/-- The record invariant lifted over an optional TX TS lookup result. -/
def OptTxInv : Option tx_ts_record → Prop
  | none => True
  | some ts => TxTsInv ts

/-- A concrete valid BA record whose timer is armed. -/
def armedRecord : BA_RECORD :=
  { bValid := true, DialogToken := 1,
    BaParamSet :=
      { AMSDU_Support := 0, BAPolicy := 1, TID := 2, BufferSize := 32 },
    BaTimeoutValue := 50,
    BaStartSeqCtrl := { FragNum := 0, SeqNum := 9 },
    timerArmed := true }

/-- Claim C7 counterexample: ResetBaEntry is a module operation that
deactivates a record (bValid becomes false) without canceling its timer,
so a record can be invalid with its timer still armed. -/
theorem C7_reset_leaves_timer_armed :
    armedRecord.timerArmed = true ∧
    (ResetBaEntry armedRecord).bValid = false ∧
    (ResetBaEntry armedRecord).timerArmed = true ∧
    ¬ BaInv (ResetBaEntry armedRecord) := by
  refine ⟨rfl, rfl, rfl, ?_⟩
  intro h
  exact absurd (h rfl) (by decide)

theorem BaInv_activate (r : BA_RECORD) (t : Nat) :
    BaInv (ActivateBAEntry r t) := by
  unfold ActivateBAEntry BaInv
  split <;> simp

theorem BaInv_deactivate (r : BA_RECORD) : BaInv (DeActivateBAEntry r) := by
  simp [DeActivateBAEntry, BaInv]

theorem BaInv_reset (r : BA_RECORD) (h : r.timerArmed = false) :
    BaInv (ResetBaEntry r) := by
  simp [ResetBaEntry, BaInv, h]

theorem TxTsDeleteBA_inv (ts : tx_ts_record) (h : TxTsInv ts) :
    TxTsInv (TxTsDeleteBA ts).1 := by
  obtain ⟨ha, hp⟩ := h
  unfold TxTsDeleteBA TxTsInv
  refine ⟨?_, ?_⟩ <;> simp only [] <;> split
  · exact BaInv_deactivate _
  · exact ha
  · exact BaInv_deactivate _
  · exact hp

theorem RxTsDeleteBA_inv (ts : rx_ts_record) (h : RxTsInv ts) :
    RxTsInv (RxTsDeleteBA ts).1 := by
  unfold RxTsDeleteBA
  split
  · exact BaInv_deactivate _
  · exact h

theorem rx_ADDBAReq_inv (ieee : ieee80211_device) (skb : List Nat)
    (l : Option rx_ts_record) (h : OptRxInv l) :
    OptRxInv (ieee80211_rx_ADDBAReq ieee skb l).2.1 := by
  unfold ieee80211_rx_ADDBAReq
  by_cases hl : skb.length < hdr3addrSize + 9
  · rw [if_pos hl]
    exact h
  · rw [if_neg hl]
    by_cases hc : ieee.qos_active = false ∨ ieee.bCurrentHTSupport = false
    · simp only [if_pos hc]
      exact h
    · simp only [if_neg hc]
      cases l with
      | none => trivial
      | some pTS =>
        by_cases hp : (BA_PARAM_SET.ofShort
            (decode_ADDBAReq_fields skb).paramShort).BAPolicy
            = BA_POLICY_DELAYED
        · simp only [if_pos hp]
          exact h
        · simp only [if_neg hp]
          exact BaInv_activate _ _

theorem rx_ADDBARsp_inv (ieee : ieee80211_device) (skb : List Nat)
    (l : Option tx_ts_record) (h : OptTxInv l) :
    OptTxInv (ieee80211_rx_ADDBARsp ieee skb l).2.1 := by
  unfold ieee80211_rx_ADDBARsp
  by_cases hl : skb.length < hdr3addrSize + 9
  · rw [if_pos hl]
    exact h
  · rw [if_neg hl]
    by_cases hc : ieee.qos_active = false ∨ ieee.bCurrentHTSupport = false ∨
        ieee.bCurrentAMPDUEnable = false
    · simp only [if_pos hc]
      exact h
    · simp only [if_neg hc]
      cases l with
      | none => trivial
      | some pTS0 =>
        obtain ⟨ha, hp⟩ := h
        by_cases h1 : ({ pTS0 with add_ba_req_in_progress := false
            : tx_ts_record }).tx_admitted_ba_record.bValid = true
        · simp only [if_pos h1]
          exact ⟨ha, hp⟩
        · simp only [if_neg h1]
          by_cases h2 : ({ pTS0 with add_ba_req_in_progress := false
              : tx_ts_record }).tx_pending_ba_record.bValid = false ∨
              byteAt skb (hdr3addrSize + 2)
                ≠ ({ pTS0 with add_ba_req_in_progress := false
                  : tx_ts_record }).tx_pending_ba_record.DialogToken
          · simp only [if_pos h2]
            exact ⟨ha, hp⟩
          · simp only [if_neg h2]
            by_cases h3 : le16At skb (hdr3addrSize + 3) = ADDBA_STATUS_SUCCESS
            · simp only [if_pos h3]
              by_cases h4 : (BA_PARAM_SET.ofShort
                  (le16At skb (hdr3addrSize + 5))).BAPolicy
                  = BA_POLICY_DELAYED
              · simp only [if_pos h4]
                exact ⟨BaInv_deactivate _, BaInv_deactivate _⟩
              · simp only [if_neg h4]
                exact ⟨BaInv_activate _ _, BaInv_deactivate _⟩
            · simp only [if_neg h3]
              exact ⟨ha, BaInv_deactivate _⟩

theorem rx_DELBA_inv (ieee : ieee80211_device) (skb : List Nat)
    (rl : Option rx_ts_record) (tl : Option tx_ts_record)
    (hr : OptRxInv rl) (ht : OptTxInv tl) :
    OptRxInv (ieee80211_rx_DELBA ieee skb rl tl).2.1 ∧
    OptTxInv (ieee80211_rx_DELBA ieee skb rl tl).2.2.1 := by
  unfold ieee80211_rx_DELBA
  by_cases hl : skb.length < hdr3addrSize + 6
  · rw [if_pos hl]
    exact ⟨hr, ht⟩
  · rw [if_neg hl]
    by_cases hc : ieee.qos_active = false ∨ ieee.bCurrentHTSupport = false
    · simp only [if_pos hc]
      exact ⟨hr, ht⟩
    · simp only [if_neg hc]
      by_cases hi : delbaInitiator (le16At skb (hdr3addrSize + 2)) = 1
      · simp only [if_pos hi]
        cases rl with
        | none => exact ⟨trivial, ht⟩
        | some pRxTs => exact ⟨RxTsDeleteBA_inv _ hr, ht⟩
      · simp only [if_neg hi]
        cases tl with
        | none => exact ⟨hr, trivial⟩
        | some pTxTs =>
          refine ⟨hr, TxTsDeleteBA_inv _ ⟨?_, ?_⟩⟩
          · exact ht.1
          · exact ht.2

theorem TsInitAddBA_inv (ieee : ieee80211_device) (ts : tx_ts_record)
    (p : Nat) (ow : Bool) (h : TxTsInv ts) :
    TxTsInv (TsInitAddBA ieee ts p ow).1 := by
  unfold TsInitAddBA
  split
  · exact h
  · exact ⟨h.1, BaInv_activate _ _⟩

theorem TsInitDelBA_inv (dir : tr_select) (txTs : tx_ts_record)
    (rxTs : rx_ts_record) (ht : TxTsInv txTs) (hr : RxTsInv rxTs) :
    TxTsInv (TsInitDelBA dir txTs rxTs).1 ∧
    RxTsInv (TsInitDelBA dir txTs rxTs).2.1 := by
  cases dir with
  | TX_DIR =>
    unfold TsInitDelBA
    by_cases hs : (TxTsDeleteBA txTs).2 = true
    · simp only [hs, if_true]
      exact ⟨TxTsDeleteBA_inv _ ht, hr⟩
    · simp only [hs, if_false]
      exact ⟨TxTsDeleteBA_inv _ ht, hr⟩
  | RX_DIR =>
    unfold TsInitDelBA
    by_cases hs : (RxTsDeleteBA rxTs).2 = true
    · simp only [hs, if_true]
      exact ⟨ht, RxTsDeleteBA_inv _ hr⟩
    · simp only [hs, if_false]
      exact ⟨ht, RxTsDeleteBA_inv _ hr⟩

theorem BaSetupTimeOut_inv (ts : tx_ts_record) (h : TxTsInv ts) :
    TxTsInv (BaSetupTimeOut ts) := by
  refine ⟨h.1, ?_⟩
  simp [BaSetupTimeOut, BaInv]

theorem TxBaInactTimeout_inv (ts : tx_ts_record) (h : TxTsInv ts) :
    TxTsInv (TxBaInactTimeout ts).1 := by
  refine TxTsDeleteBA_inv _ ⟨?_, h.2⟩
  intro hv
  rfl

theorem RxBaInactTimeout_inv (ts : rx_ts_record) (h : RxTsInv ts) :
    RxTsInv (RxBaInactTimeout ts).1 := by
  refine RxTsDeleteBA_inv _ ?_
  intro hv
  rfl

/-- Claim C7 as amended: the invariant "bValid = false implies the timer
is not armed" is preserved by every operation of the module --
ActivateBAEntry, both frame handlers for each direction, TsInitAddBA,
TsInitDelBA and the three timer callbacks -- and is established
unconditionally by DeActivateBAEntry; ResetBaEntry alone preserves it
only when the record's timer is not armed, because it clears bValid
without touching the timer. -/
theorem C7_invariant_preserved :
    (∀ r t, BaInv (ActivateBAEntry r t)) ∧
    (∀ r, BaInv (DeActivateBAEntry r)) ∧
    (∀ r, r.timerArmed = false → BaInv (ResetBaEntry r)) ∧
    (∀ ieee skb l, OptRxInv l →
      OptRxInv (ieee80211_rx_ADDBAReq ieee skb l).2.1) ∧
    (∀ ieee skb l, OptTxInv l →
      OptTxInv (ieee80211_rx_ADDBARsp ieee skb l).2.1) ∧
    (∀ ieee skb rl tl, OptRxInv rl → OptTxInv tl →
      OptRxInv (ieee80211_rx_DELBA ieee skb rl tl).2.1 ∧
      OptTxInv (ieee80211_rx_DELBA ieee skb rl tl).2.2.1) ∧
    (∀ ieee ts p ow, TxTsInv ts → TxTsInv (TsInitAddBA ieee ts p ow).1) ∧
    (∀ dir txTs rxTs, TxTsInv txTs → RxTsInv rxTs →
      TxTsInv (TsInitDelBA dir txTs rxTs).1 ∧
      RxTsInv (TsInitDelBA dir txTs rxTs).2.1) ∧
    (∀ ts, TxTsInv ts → TxTsInv (BaSetupTimeOut ts)) ∧
    (∀ ts, TxTsInv ts → TxTsInv (TxBaInactTimeout ts).1) ∧
    (∀ ts, RxTsInv ts → RxTsInv (RxBaInactTimeout ts).1) :=
  ⟨BaInv_activate, BaInv_deactivate, BaInv_reset, rx_ADDBAReq_inv,
   rx_ADDBARsp_inv, rx_DELBA_inv, TsInitAddBA_inv, TsInitDelBA_inv,
   BaSetupTimeOut_inv, TxBaInactTimeout_inv, RxBaInactTimeout_inv⟩

theorem C7_invariant_preserved_witness :
    BaInv (DeActivateBAEntry armedRecord) ∧
    BaInv (ResetBaEntry (DeActivateBAEntry armedRecord)) ∧
    TxTsInv (BaSetupTimeOut idleTxTs) ∧
    OptTxInv (ieee80211_rx_ADDBARsp devAllOn staleRspFrame
      (some idleTxTs)).2.1 := by
  have h := C7_invariant_preserved
  exact ⟨h.2.1 armedRecord,
         h.2.2.1 (DeActivateBAEntry armedRecord) rfl,
         h.2.2.2.2.2.2.2.2.1 idleTxTs ⟨fun _ => rfl, fun _ => rfl⟩,
         h.2.2.2.2.1 devAllOn staleRspFrame (some idleTxTs)
           ⟨fun _ => rfl, fun _ => rfl⟩⟩
